import Mathlib

/-!
Shallow embedding of the Simplechatapp repository (Fastify + socket.io chat
server with adapter pattern, and its browser client) for checking the
natural-language specification against the code.

Server side (src/unnamed/part_000, lines 474-817): `DatabaseAdapter.saveMessage`,
`SocketAdapter.broadcast/broadcastExcept/sendToClient`, `MessageService.sendMessage`,
and the `io.on("connection")` handler for the `chat message` event.

Client side (src/unnamed/part_000, lines 1-474): `handleTyping`, the debounce
timeout callback, the typing-clear block of `sendMessage`, `handleAcknowledgement`,
`addRetryButton` (its click handler and acknowledgement closure), and
`handleIncomingMessage`.

JavaScript objects are modelled as structures whose possibly-absent fields are
`Option`s (`none` = field absent / `undefined`); JS truthiness of a string is
"present and non-empty"; timestamps are `Nat`.
-/

namespace ChatApp

/-- JS `String.prototype.trim()`: strip whitespace from both ends of the string
(written over the character list so that it evaluates by kernel reduction). -/
def jsTrim (s : String) : String :=
  ⟨((s.data.dropWhile Char.isWhitespace).reverse.dropWhile Char.isWhitespace).reverse⟩

/-- JS `a || d` for a possibly-absent string `a`: `undefined` and `""` are falsy. -/
def jsOr (a : Option String) (d : String) : String :=
  match a with
  | none => d
  | some s => if s = "" then d else s

/-- JS `a || d` for a present string `a`: only `""` is falsy. -/
def jsOrStr (a d : String) : String :=
  if a = "" then d else a

/-- JS template interpolation of a possibly-absent string (`undefined` prints as "undefined"). -/
def jsShow : Option String → String
  | none => "undefined"
  | some s => s

/-- JS `a || b` where both operands are possibly-absent strings. -/
def orFalsy (a b : Option String) : Option String :=
  match a with
  | none => b
  | some s => if s = "" then b else some s

namespace Server

/-- A persisted record, as produced by `Message.create` (sequelize model with
`id` auto-assigned, `username`, `text`, `createdAt` timestamp). -/
structure MessageRec where
  id : Nat
  username : String
  text : String
  createdAt : Nat
deriving Repr, DecidableEq

/-- State of the persistence store backing `DatabaseAdapter`.  `records` is the
`Messages` table, `nextId` the next auto-increment id, `now` the clock used for
`createdAt`.  `createCalls` counts invocations of `Message.create` so that
"persists exactly one record via create" / "without calling create" are
directly observable. -/
structure StoreState where
  records : List MessageRec
  nextId : Nat
  now : Nat
  createCalls : Nat
deriving Repr, DecidableEq

/-- Result shape of `DatabaseAdapter.saveMessage`:
`{success:true, data}` or `{success:false, error}`. -/
inductive DbResult where
  | success (data : MessageRec)
  | failure (error : String)
deriving Repr, DecidableEq

/-- `DatabaseAdapter.saveMessage(data)`: calls `Message.create({username: data.username
|| 'Anonymous', text: data.text})` and wraps the outcome.  Whether the underlying
`create` throws is modelled by the oracle `failure` (`some e` = `create` throws an
error whose `.message` is `e`). -/
def saveMessage (failure : Option String) (st : StoreState) (username text : String) :
    StoreState × DbResult :=
  let st' := { st with createCalls := st.createCalls + 1 }
  match failure with
  | some e => (st', .failure e)
  | none =>
    let saved : MessageRec :=
      { id := st.nextId
        username := jsOrStr username "Anonymous"
        text := text
        createdAt := st.now }
    ({ st' with records := st'.records ++ [saved], nextId := st'.nextId + 1 }, .success saved)

/-- A delivery of one socket event to one connected client. -/
structure Delivery (α : Type) where
  target : String
  event : String
  payload : α
deriving Repr, DecidableEq

/-- State of `SocketAdapter`: the `clients` map, keyed by socket id.  The map is
kept in sync with io's connected sockets by `handleConnection` /
`handleDisconnection`, so the same list also enumerates the sockets reached by
`io.emit` and `socket.broadcast.emit`. -/
structure SocketState where
  clients : List String
deriving Repr, DecidableEq

/-- `SocketAdapter.broadcast(event, data)`: `io.emit` delivers to every connected client. -/
def broadcast (ss : SocketState) (event : String) (payload : α) : List (Delivery α) :=
  ss.clients.map fun c => ⟨c, event, payload⟩

/-- `SocketAdapter.broadcastExcept(senderSocketId, event, data)`: looks the sender up
in the `clients` map; if present, `sender.socket.broadcast.emit(event, data)`
delivers to every connected client except the sender; if absent, nothing is sent. -/
def broadcastExcept (ss : SocketState) (senderSocketId event : String) (payload : α) :
    List (Delivery α) :=
  if senderSocketId ∈ ss.clients then
    (ss.clients.filter (· ≠ senderSocketId)).map fun c => ⟨c, event, payload⟩
  else []

/-- `SocketAdapter.sendToClient(socketId, event, data)`: delivers to exactly the one
client if it is registered, else does nothing (returns false). -/
def sendToClient (ss : SocketState) (socketId event : String) (payload : α) :
    List (Delivery α) :=
  if socketId ∈ ss.clients then [⟨socketId, event, payload⟩] else []

/-- Payload of a server→client `chat message` event.  The broadcast payload built by
`MessageService.sendMessage` carries `isBroadcast: true` and no `isOwnMessage`
field (modelled `false`); the point-to-point copy sent back to the sender is the
same object spread with `isOwnMessage: true`. -/
structure ChatPayload where
  id : Nat
  sender : String
  text : String
  createdAt : Nat
  isBroadcast : Bool
  isOwnMessage : Bool
deriving Repr, DecidableEq

/-- Inbound `chat message` payload `{username, text}` from a client; either field
may be absent. -/
structure MessageData where
  username : Option String
  text : Option String
deriving Repr, DecidableEq

/-- The guard `!messageData.text || messageData.text.trim() === ''`
(absent text is falsy, and `''.trim() === ''`). -/
def emptyAfterTrim : Option String → Bool
  | none => true
  | some t => jsTrim t == ""

/-- Return value of `MessageService.sendMessage`: `{success:true, data, broadcastData}`
or `{success:false, error, code}`. -/
inductive SendResult where
  | ok (data : MessageRec) (broadcastData : ChatPayload)
  | err (error : String) (code : String)
deriving Repr, DecidableEq

/-- `MessageService.sendMessage` outcome together with its side effects: the store
state after the call and the socket deliveries it performed. -/
structure SendOutcome where
  store : StoreState
  result : SendResult
  deliveries : List (Delivery ChatPayload)
deriving Repr, DecidableEq

/-- `MessageService.sendMessage(messageData, senderSocketId)`:
validate (trimmed text non-empty, else `VALIDATION_ERROR`), persist via
`saveMessage` (failure → `DATABASE_ERROR` carrying `dbResult.error || 'Failed to
save message'`), build the broadcast payload from the stored record, then
`broadcastExcept(senderSocketId, …)` when a sender socket id was given, else
`broadcast`. -/
def sendMessage (dbFailure : Option String) (store : StoreState) (ss : SocketState)
    (messageData : MessageData) (senderSocketId : Option String) : SendOutcome :=
  if emptyAfterTrim messageData.text then
    { store := store
      result := .err "Message cannot be empty" "VALIDATION_ERROR"
      deliveries := [] }
  else
    match saveMessage dbFailure store (jsOr messageData.username "Anonymous")
        (jsTrim (messageData.text.getD "")) with
    | (store', .failure e) =>
      { store := store'
        result := .err (jsOrStr e "Failed to save message") "DATABASE_ERROR"
        deliveries := [] }
    | (store', .success saved) =>
      let broadcastData : ChatPayload :=
        { id := saved.id
          sender := saved.username
          text := saved.text
          createdAt := saved.createdAt
          isBroadcast := true
          isOwnMessage := false }
      let dels :=
        match senderSocketId with
        | some sid => broadcastExcept ss sid "chat message" broadcastData
        | none => broadcast ss "chat message" broadcastData
      { store := store', result := .ok saved broadcastData, deliveries := dels }

/-- The object passed to a `chat message` acknowledgement callback, with one
`Option` field per property any handler in the repository puts on (or reads
from) it; `none` = property absent. -/
structure AckObject where
  status : String
  messageId : Option Nat := none
  sender : Option String := none
  text : Option String := none
  timestamp : Option Nat := none
  serverTime : Option Nat := none
  message : Option String := none
  error : Option String := none
  code : Option String := none
deriving Repr, DecidableEq

/-- Result of the server's `clientSocket.on("chat message")` handler for one inbound
event: store state afterwards, the acknowledgement callback invocation (if any),
and all socket deliveries (broadcast plus the point-to-point own-message copy). -/
structure HandleResult where
  store : StoreState
  ack : Option AckObject
  deliveries : List (Delivery ChatPayload)
deriving Repr, DecidableEq

/-- The `clientSocket.on("chat message", async (data, acknowledgementCallback) => …)`
handler: runs `messageService.sendMessage(data, socket.id)`; when a callback was
supplied, on success it acknowledges with `{status:'success', messageId, sender,
text, timestamp, code:'MESSAGE_SENT'}` (note: no `serverTime` property is set)
and sends the sender its own copy via `sendToClient` with `isOwnMessage: true`;
on failure it acknowledges `{status:'error', message, code}`.  (The surrounding
`try/catch` only matters when the service itself throws, which the model's
`sendMessage` never does.) -/
def handleChatMessage (dbFailure : Option String) (store : StoreState) (ss : SocketState)
    (socketId : String) (data : MessageData) (hasCallback : Bool) : HandleResult :=
  let out := sendMessage dbFailure store ss data (some socketId)
  match out.result with
  | .ok saved broadcastData =>
    if hasCallback then
      { store := out.store
        ack := some
          { status := "success"
            messageId := some saved.id
            sender := some saved.username
            text := some saved.text
            timestamp := some saved.createdAt
            code := some "MESSAGE_SENT" }
        deliveries := out.deliveries ++
          sendToClient ss socketId "chat message" { broadcastData with isOwnMessage := true } }
    else
      { store := out.store, ack := none, deliveries := out.deliveries }
  | .err msg code =>
    if hasCallback then
      { store := out.store
        ack := some { status := "error", message := some msg, code := some code }
        deliveries := out.deliveries }
    else
      { store := out.store, ack := none, deliveries := out.deliveries }

/-- The socket events for which `io.on("connection")` registers a listener: exactly
`chat message` and `disconnect` (src/unnamed/part_000 lines 714-762).  No listener
is registered for `typing` or `stop_typing`. -/
def serverRegisteredEvents : List String := ["chat message", "disconnect"]

/-- An inbound client→server socket event. -/
inductive ClientEvent where
  | chatMessage (data : MessageData) (hasCallback : Bool)
  | typing (username : String)
  | stopTyping (username : String)
deriving Repr, DecidableEq

/-- Dispatch of one inbound socket event by the server's connection handler.
`chat message` runs `handleChatMessage`; `typing` and `stop_typing` have no
registered listener (socket.io silently drops events without listeners), so they
change nothing and deliver nothing. -/
def dispatchClientEvent (dbFailure : Option String) (store : StoreState) (ss : SocketState)
    (socketId : String) : ClientEvent → HandleResult
  | .chatMessage data hasCallback => handleChatMessage dbFailure store ss socketId data hasCallback
  | .typing _ => { store := store, ack := none, deliveries := [] }
  | .stopTyping _ => { store := store, ack := none, deliveries := [] }

end Server

namespace Client

/-- First-entry lookup in an association list (JS `Map.prototype.get`; keys in a
`Map` are unique, so first entry is the entry). -/
def lookupP {β : Type} : List (String × β) → String → Option β
  | [], _ => none
  | (k, v) :: rest, key => if k = key then some v else lookupP rest key

/-- Key removal from an association list (JS `Map.prototype.delete`). -/
def eraseP {β : Type} (l : List (String × β)) (key : String) : List (String × β) :=
  l.filter fun kv => kv.1 ≠ key

/-- `element.classList.add(c)`: set semantics, no duplicate. -/
def addClass (classes : List String) (c : String) : List String :=
  if c ∈ classes then classes else classes ++ [c]

/-- `element.classList.remove(c)`. -/
def removeClass (classes : List String) (c : String) : List String :=
  classes.filter (· ≠ c)

/-- The retry button `addRetryButton` attaches to a failed message `li`: its
captured `username`/`text` closure arguments, its `disabled` flag and its label. -/
structure RetryInfo where
  username : String
  text : String
  disabled : Bool
  label : String
deriving Repr, DecidableEq

/-- One `li` in the message list (`messagesEl`): `dataset.messageId`, the rendered
sender/text content, the meta timestamp, the status span, the CSS class list,
and the retry button if one is attached. -/
structure Entry where
  messageId : String
  sender : String
  text : String
  createdAt : Option Nat
  status : Option String
  classes : List String
  retry : Option RetryInfo
deriving Repr, DecidableEq

/-- The value stored in `pendingMessages` for a tempId: a reference to the `li`
(modelled as its index in the message list) plus the original `username`/`text`. -/
structure PendingEntry where
  liIndex : Nat
  username : String
  text : String
deriving Repr, DecidableEq

/-- Client application state: `myName`, the `pendingMessages` map, the message
list, and `tempIdCounter`. -/
structure ClientState where
  myName : String
  pending : List (String × PendingEntry)
  entries : List Entry
  tempIdCounter : Nat
deriving Repr, DecidableEq

/-- The `updates` object accepted by `updateMessageElement` (fields it reads:
`sender`, `text`, `createdAt`, `status`, `id`; anything else it ignores). -/
structure EntryUpdates where
  id : Option Nat := none
  sender : Option String := none
  text : Option String := none
  createdAt : Option Nat := none
  status : Option String := none
deriving Repr, DecidableEq

/-- `updateMessageElement(li, updates)`: rewrites the content when both
`updates.sender` and `updates.text` are truthy; sets the meta time when
`updates.createdAt` is given (a `Date` object is always truthy); replaces or
creates the status span when `updates.status` is truthy; sets
`li.dataset.messageId` when `updates.id` is truthy (0 would be falsy). -/
def updateMessageElement (e : Entry) (u : EntryUpdates) : Entry :=
  let e1 :=
    match u.sender, u.text with
    | some s, some t => if s ≠ "" ∧ t ≠ "" then { e with sender := s, text := t } else e
    | _, _ => e
  let e2 := match u.createdAt with
    | some c => { e1 with createdAt := some c }
    | none => e1
  let e3 := match u.status with
    | some st => if st ≠ "" then { e2 with status := some st } else e2
    | none => e2
  match u.id with
  | some n => if n ≠ 0 then { e3 with messageId := toString n } else e3
  | none => e3

/-- `addRetryButton(li, username, text)`: appends an enabled "Retry" button whose
click handler closes over the given `username` and `text`. -/
def addRetryButton (e : Entry) (username text : String) : Entry :=
  { e with retry := some { username := username, text := text, disabled := false, label := "Retry" } }

/-- `handleAcknowledgement(tempId, acknowledgement)`: looks the tempId up in
`pendingMessages` and returns immediately when absent; otherwise deletes it from
the map, then on `status === 'success'` updates the `li` in place (id, sender,
text, time, `✓ Delivered` status) and swaps class `pending` for `me`; on failure
swaps `pending` for `error`, writes the failure status from
`acknowledgement.message || acknowledgement.error`, and attaches a retry button
bound to the pending entry's original `username`/`text`. -/
def handleAcknowledgement (st : ClientState) (tempId : String)
    (ack : Server.AckObject) : ClientState :=
  match lookupP st.pending tempId with
  | none => st
  | some pnd =>
    let pending' := eraseP st.pending tempId
    if ack.status = "success" then
      let entries' :=
        match st.entries[pnd.liIndex]? with
        | none => st.entries
        | some li =>
          let li := updateMessageElement li
            { id := ack.messageId, sender := ack.sender, text := ack.text
              createdAt := ack.timestamp, status := some "✓ Delivered" }
          let li := { li with classes := addClass (removeClass li.classes "pending") "me" }
          st.entries.set pnd.liIndex li
      { st with pending := pending', entries := entries' }
    else
      let entries' :=
        match st.entries[pnd.liIndex]? with
        | none => st.entries
        | some li =>
          let li := { li with classes := addClass (removeClass li.classes "pending") "error" }
          let li := updateMessageElement li
            { status := some ("✗ " ++ jsShow (orFalsy ack.message ack.error)) }
          let li := addRetryButton li pnd.username pnd.text
          st.entries.set pnd.liIndex li
      { st with pending := pending', entries := entries' }

/-- The retry button's `onclick` handler: a click on an enabled button disables it
(label "Retrying..."), swaps class `error` for `pending`, sets the `⏳ Retrying...`
status, and re-emits `chat message` with the captured original `username`/`text`
(returned as the second component); a disabled button dispatches no click, and an
entry without a button has no handler. -/
def retryClick (st : ClientState) (i : Nat) : ClientState × Option (String × String) :=
  match st.entries[i]? with
  | none => (st, none)
  | some e =>
    match e.retry with
    | none => (st, none)
    | some r =>
      if r.disabled then (st, none)
      else
        let e' := { e with
          retry := some { r with disabled := true, label := "Retrying..." }
          classes := addClass (removeClass e.classes "error") "pending"
          status := some "⏳ Retrying..." }
        ({ st with entries := st.entries.set i e' }, some (r.username, r.text))

/-- The acknowledgement closure registered by the retry click: on success sets the
`✓ Delivered (Retried)` status, swaps class `pending` for `me` and removes the
retry button; on failure swaps `pending` for `error`, writes the failure status
from `acknowledgement.message`, and re-enables the button (label "Retry"). -/
def retryAck (st : ClientState) (i : Nat) (ack : Server.AckObject) : ClientState :=
  match st.entries[i]? with
  | none => st
  | some e =>
    if ack.status = "success" then
      let e' := { e with
        status := some "✓ Delivered (Retried)"
        classes := addClass (removeClass e.classes "pending") "me"
        retry := none }
      { st with entries := st.entries.set i e' }
    else
      let e' := { e with
        classes := addClass (removeClass e.classes "pending") "error"
        status := some ("✗ " ++ jsShow ack.message)
        retry := e.retry.map fun r => { r with disabled := false, label := "Retry" } }
      { st with entries := st.entries.set i e' }

/-- A server→client `chat message` event payload as read by `handleIncomingMessage`:
`isBroadcast`/`isOwnMessage` are absent-or-true flags (absent modelled `false`). -/
structure IncomingMsg where
  id : Nat
  sender : String
  text : String
  createdAt : Nat
  isBroadcast : Bool
  isOwnMessage : Bool
deriving Repr, DecidableEq

/-- `createMessageElement(msg)`: builds an `li` with class `pending` when
`msg.isPending`, else `me` when the sender is the local identity; renders sender,
text, time and status; sets `dataset.messageId`. -/
def createMessageElement (myName : String) (id : String) (sender text : String)
    (createdAt : Option Nat) (isPending : Bool) (status : Option String) : Entry :=
  { messageId := id
    sender := sender
    text := text
    createdAt := createdAt
    status := status
    classes := if isPending then ["pending"] else if sender = myName then ["me"] else []
    retry := none }

/-- `handleIncomingMessage(msg)`: returns early (renders nothing) when
`msg.sender === myName && msg.isBroadcast && !msg.isOwnMessage`; otherwise appends
a new non-pending `li` (status `✓ Sent` for own-message copies, else `📨 Received`),
adding class `me` when the sender equals the local identity.  The pending map is
never consulted or modified. -/
def handleIncomingMessage (st : ClientState) (msg : IncomingMsg) : ClientState :=
  if msg.sender = st.myName ∧ msg.isBroadcast ∧ ¬msg.isOwnMessage then st
  else
    let li := createMessageElement st.myName (toString msg.id) msg.sender msg.text
      (some msg.createdAt) false (some (if msg.isOwnMessage then "✓ Sent" else "📨 Received"))
    let li := if msg.sender = st.myName then { li with classes := addClass li.classes "me" } else li
    { st with entries := st.entries ++ [li] }

/-- The client's typing-presence state: the `isTyping` flag and the pending
debounce timer (`typingTimeout`), as milliseconds remaining until it fires. -/
structure TypingState where
  isTyping : Bool
  timer : Option Nat
deriving Repr, DecidableEq

/-- The debounce delay passed to `setTimeout` in `handleTyping`. -/
def typingDebounceMs : Nat := 1000

/-- The idle typing state: flag clear, no timer scheduled. -/
def idleTyping : TypingState := { isTyping := false, timer := none }

/-- An emitted presence signal: event name (`typing` / `stop_typing`) and the
`username` of its payload. -/
abbrev PresenceEmit := String × String

/-- `handleTyping()` (the `input` listener): returns when `myName` is empty;
emits `typing` once when the flag is not yet set; always clears and re-arms the
1000ms debounce timer. -/
def handleTyping (myName : String) (s : TypingState) : TypingState × List PresenceEmit :=
  if myName = "" then (s, [])
  else if s.isTyping then ({ isTyping := true, timer := some typingDebounceMs }, [])
  else ({ isTyping := true, timer := some typingDebounceMs }, [("typing", myName)])

/-- Passage of `d` milliseconds with no input: if the armed timer elapses, its
callback fires — `if (isTyping) { isTyping = false; emit stop_typing }` — and the
timer is spent; otherwise the timer keeps counting down. -/
def elapse (myName : String) (s : TypingState) (d : Nat) : TypingState × List PresenceEmit :=
  match s.timer with
  | none => (s, [])
  | some t =>
    if t ≤ d then
      if s.isTyping then ({ isTyping := false, timer := none }, [("stop_typing", myName)])
      else ({ s with timer := none }, [])
    else ({ s with timer := some (t - d) }, [])

/-- The typing-clear block of the client's `sendMessage` (reached only when the
message text is non-empty): if the flag is set, emit `stop_typing`, clear the
flag and cancel the pending timer. -/
def sendTypingClear (myName : String) (s : TypingState) : TypingState × List PresenceEmit :=
  if s.isTyping then ({ isTyping := false, timer := none }, [("stop_typing", myName)])
  else (s, [])

/-- A burst of input activity: after the first keystroke, `gaps` lists the idle
milliseconds before each further keystroke. -/
def runGaps (myName : String) (s : TypingState) : List Nat → TypingState × List PresenceEmit
  | [] => (s, [])
  | g :: gs =>
    let p1 := elapse myName s g
    let p2 := handleTyping myName p1.1
    let p3 := runGaps myName p2.1 gs
    (p3.1, p1.2 ++ p2.2 ++ p3.2)

/-- How a burst of input activity ends: either `d` ms of quiescence (no further
input), or a message send. -/
inductive BurstEnd where
  | quiescence (d : Nat)
  | send
deriving Repr, DecidableEq

/-- A burst terminator actually terminates the burst: quiescence lasts at least
the debounce delay. -/
def burstEndOk : BurstEnd → Prop
  | .quiescence d => typingDebounceMs ≤ d
  | .send => True

/-- Run one unbroken burst from the idle state: first keystroke, the inner
keystrokes after their gaps, then the terminator. -/
def runBurst (myName : String) (gaps : List Nat) (e : BurstEnd) :
    TypingState × List PresenceEmit :=
  let p1 := handleTyping myName idleTyping
  let p2 := runGaps myName p1.1 gaps
  let p3 :=
    match e with
    | .quiescence d => elapse myName p2.1 d
    | .send => sendTypingClear myName p2.1
  (p3.1, p1.2 ++ p2.2 ++ p3.2)

end Client

/-! ## Concrete fixtures used by witnesses and counterexamples -/

/-- An empty store whose clock reads 1729 and whose next id is 1. -/
def storeA : Server.StoreState := { records := [], nextId := 1, now := 1729, createCalls := 0 }

/-- A socket registry with three connected clients. -/
def sockA : Server.SocketState := { clients := ["s1", "s2", "s3"] }

/-! ## Claim theorems -/

/-- C1: For every inbound `chat message` whose text is non-empty after trimming
(and a reachable store), `MessageService.sendMessage` persists exactly one record
via the store's `create`, and the acknowledgement delivered to the sender reports
success with `messageId` equal to the persisted record's server-assigned id. -/
theorem c1_send_persists_one_record_and_acks_its_id
    (store : Server.StoreState) (ss : Server.SocketState) (sid : String)
    (u : Option String) (t : String) (ht : jsTrim t ≠ "") :
    ∃ saved : Server.MessageRec,
      (Server.handleChatMessage none store ss sid ⟨u, some t⟩ true).store.records
          = store.records ++ [saved]
      ∧ (Server.handleChatMessage none store ss sid ⟨u, some t⟩ true).store.createCalls
          = store.createCalls + 1
      ∧ ∃ a, (Server.handleChatMessage none store ss sid ⟨u, some t⟩ true).ack = some a
          ∧ a.status = "success" ∧ a.messageId = some saved.id
          ∧ a.code = some "MESSAGE_SENT" := by
  have hb : (jsTrim t == "") = false := by
    simpa using ht
  refine ⟨{ id := store.nextId, username := jsOrStr (jsOr u "Anonymous") "Anonymous",
            text := jsTrim t, createdAt := store.now }, ?_, ?_, ?_⟩ <;>
    simp [Server.handleChatMessage, Server.sendMessage, Server.emptyAfterTrim, hb,
      Server.saveMessage]

/-- C1 witness: sending `{username:"Ann", text:" hi "}` from socket `s1` against the
empty store appends one record with id 1 and acknowledges success with that id. -/
theorem c1_witness :
    ∃ saved : Server.MessageRec,
      (Server.handleChatMessage none storeA sockA "s1" ⟨some "Ann", some " hi "⟩ true).store.records
          = storeA.records ++ [saved]
      ∧ (Server.handleChatMessage none storeA sockA "s1" ⟨some "Ann", some " hi "⟩ true).store.createCalls
          = storeA.createCalls + 1
      ∧ ∃ a, (Server.handleChatMessage none storeA sockA "s1" ⟨some "Ann", some " hi "⟩ true).ack = some a
          ∧ a.status = "success" ∧ a.messageId = some saved.id
          ∧ a.code = some "MESSAGE_SENT" :=
  c1_send_persists_one_record_and_acks_its_id storeA sockA "s1" (some "Ann") " hi " (by decide)

/-- C2: For every inbound message whose text is absent or trims to the empty
string, `MessageService.sendMessage` returns a validation failure with the
distinct code `VALIDATION_ERROR`, without calling the store's `create` (store
state unchanged, `createCalls` included) and without delivering anything to any
session. -/
theorem c2_empty_text_validation_failure
    (dbFailure : Option String) (store : Server.StoreState) (ss : Server.SocketState)
    (data : Server.MessageData) (sid : Option String)
    (h : Server.emptyAfterTrim data.text = true) :
    Server.sendMessage dbFailure store ss data sid =
      { store := store
        result := .err "Message cannot be empty" "VALIDATION_ERROR"
        deliveries := [] }
    ∧ "VALIDATION_ERROR" ≠ "DATABASE_ERROR" := by
  refine ⟨?_, by decide⟩
  simp [Server.sendMessage, h]

/-- C2 witness: whitespace-only text from socket `s1` changes nothing, delivers
nothing, and fails with `VALIDATION_ERROR`. -/
theorem c2_witness :
    Server.sendMessage none storeA sockA ⟨some "Bob", some "   "⟩ (some "s1") =
      { store := storeA
        result := .err "Message cannot be empty" "VALIDATION_ERROR"
        deliveries := [] }
    ∧ "VALIDATION_ERROR" ≠ "DATABASE_ERROR" :=
  c2_empty_text_validation_failure none storeA sockA ⟨some "Bob", some "   "⟩ (some "s1")
    (by decide)

/-- C3: Whenever the store's `create` fails (with a non-empty error text `e`),
`MessageService.sendMessage` returns a failure whose code `DATABASE_ERROR` is
distinct from the validation code and which carries `e`, no records are added,
and no delivery reaches any session. -/
theorem c3_store_failure_carries_error_no_broadcast
    (e : String) (store : Server.StoreState) (ss : Server.SocketState)
    (data : Server.MessageData) (sid : Option String)
    (ht : Server.emptyAfterTrim data.text = false) (he : e ≠ "") :
    Server.sendMessage (some e) store ss data sid =
      { store := { store with createCalls := store.createCalls + 1 }
        result := .err e "DATABASE_ERROR"
        deliveries := [] }
    ∧ "DATABASE_ERROR" ≠ "VALIDATION_ERROR" := by
  refine ⟨?_, by decide⟩
  simp [Server.sendMessage, ht, Server.saveMessage, jsOrStr, he]

/-- C3 witness: a store throwing "connection refused" makes the send fail with
`DATABASE_ERROR` carrying that text, with no record added and no delivery. -/
theorem c3_witness :
    Server.sendMessage (some "connection refused") storeA sockA
        ⟨some "Ann", some "hi"⟩ (some "s1") =
      { store := { storeA with createCalls := storeA.createCalls + 1 }
        result := .err "connection refused" "DATABASE_ERROR"
        deliveries := [] }
    ∧ "DATABASE_ERROR" ≠ "VALIDATION_ERROR" :=
  c3_store_failure_carries_error_no_broadcast "connection refused" storeA sockA
    ⟨some "Ann", some "hi"⟩ (some "s1") (by decide) (by decide)

/-- C4: `broadcastExcept(originId, event, payload)` delivers the event with that
payload to exactly the registered sessions other than `originId`; if `originId`
is not registered it delivers to no session, and it delivers to zero sessions
when `originId` is the only registered session. -/
theorem c4_broadcastExcept_delivers_to_all_but_origin {α : Type}
    (ss : Server.SocketState) (origin event : String) (payload : α) :
    (∀ c : String,
        (∃ d ∈ Server.broadcastExcept ss origin event payload, d.target = c) ↔
          origin ∈ ss.clients ∧ c ∈ ss.clients ∧ c ≠ origin)
    ∧ (∀ d ∈ Server.broadcastExcept ss origin event payload,
        d.event = event ∧ d.payload = payload)
    ∧ (origin ∉ ss.clients → Server.broadcastExcept ss origin event payload = [])
    ∧ (ss.clients = [origin] → Server.broadcastExcept ss origin event payload = []) := by
  by_cases h : origin ∈ ss.clients
  · refine ⟨?_, ?_, fun hc => absurd h hc, ?_⟩
    · intro c
      simp only [Server.broadcastExcept, if_pos h, List.mem_map, List.mem_filter]
      constructor
      · rintro ⟨d, ⟨a, ⟨ha, hne⟩, rfl⟩, rfl⟩
        exact ⟨h, ha, by simpa using hne⟩
      · rintro ⟨-, hc, hne⟩
        exact ⟨⟨c, event, payload⟩, ⟨c, ⟨hc, by simpa using hne⟩, rfl⟩, rfl⟩
    · intro d hd
      simp only [Server.broadcastExcept, if_pos h, List.mem_map] at hd
      obtain ⟨a, -, rfl⟩ := hd
      exact ⟨rfl, rfl⟩
    · intro hc
      simp [Server.broadcastExcept, hc]
  · refine ⟨?_, ?_, fun _ => ?_, fun hc => ?_⟩
    · intro c
      simp only [Server.broadcastExcept, if_neg h]
      simp only [List.not_mem_nil, false_and, exists_false, false_iff]
      rintro ⟨ho, -, -⟩
      exact h ho
    · intro d hd
      simp [Server.broadcastExcept, if_neg h] at hd
    · simp [Server.broadcastExcept, if_neg h]
    · exact absurd (hc ▸ List.mem_singleton_self origin) h

/-- C4 witness: with `s1` as the only registered session, `broadcastExcept("s1", …)`
delivers to zero sessions. -/
theorem c4_witness :
    Server.broadcastExcept ⟨["s1"]⟩ "s1" "chat message" (0 : Nat) = [] :=
  (c4_broadcastExcept_delivers_to_all_but_origin ⟨["s1"]⟩ "s1" "chat message" 0).2.2.2 rfl

/-- C5 (code bug): on a concrete successful send the acknowledgement object built
by `clientSocket.on("chat message")` carries `status:"success"`, `messageId`,
`sender`, `text`, `timestamp` and `code:"MESSAGE_SENT"` — but no `serverTime`
property, although the client reads `acknowledgement.serverTime` in
`handleAcknowledgement`. -/
theorem c5_success_ack_has_no_serverTime :
    (Server.handleChatMessage none storeA sockA "s1" ⟨some "Ann", some "hi"⟩ true).ack =
      some
        { status := "success"
          messageId := some 1
          sender := some "Ann"
          text := some "hi"
          timestamp := some 1729
          serverTime := none
          message := none
          error := none
          code := some "MESSAGE_SENT" } := by
  decide

/-- C6 (code bug): the server's connection handler registers listeners only for
`chat message` and `disconnect`; an inbound `typing` or `stop_typing` event is
dropped — no `user_typing` (or any) event is delivered to any session, although
the client both emits these events and renders `user_typing`. -/
theorem c6_typing_events_not_relayed :
    (Server.dispatchClientEvent none storeA sockA "s1" (.typing "Ann")).deliveries = []
    ∧ (Server.dispatchClientEvent none storeA sockA "s1" (.stopTyping "Ann")).deliveries = []
    ∧ "typing" ∉ Server.serverRegisteredEvents
    ∧ "stop_typing" ∉ Server.serverRegisteredEvents := by
  refine ⟨rfl, rfl, by decide, by decide⟩

/-- In the middle of a burst (flag set, timer just re-armed), keystrokes whose
gaps are all shorter than the debounce delay emit nothing and leave the state
with the flag set and the timer re-armed. -/
theorem runGaps_active (name : String) (hn : name ≠ "") :
    ∀ gaps : List Nat, (∀ g ∈ gaps, g < Client.typingDebounceMs) →
      Client.runGaps name ⟨true, some Client.typingDebounceMs⟩ gaps =
        (⟨true, some Client.typingDebounceMs⟩, []) := by
  intro gaps
  induction gaps with
  | nil => intro _; rfl
  | cons g gs ih =>
    intro h
    have hg : g < Client.typingDebounceMs := h g (List.mem_cons_self g gs)
    have hrest := ih fun x hx => h x (List.mem_cons_of_mem g hx)
    have he : Client.elapse name ⟨true, some Client.typingDebounceMs⟩ g =
        (⟨true, some (Client.typingDebounceMs - g)⟩, []) := by
      simp [Client.elapse, Nat.not_le.mpr hg]
    have hh : Client.handleTyping name ⟨true, some (Client.typingDebounceMs - g)⟩ =
        (⟨true, some Client.typingDebounceMs⟩, []) := by
      simp [Client.handleTyping, hn]
    simp [Client.runGaps, he, hh, hrest]

/-- C7: within every unbroken burst of input activity (first keystroke from the
idle state, further keystrokes separated by less than the 1000ms debounce delay,
ended by ≥1000ms of quiescence or by a send), the client emits `typing` exactly
once (hence at most once) and `stop_typing` exactly once, and the burst ends
with the typing flag clear and the debounce timer cancelled. -/
theorem c7_typing_burst_emits_start_once_stop_once
    (name : String) (gaps : List Nat) (e : Client.BurstEnd)
    (hn : name ≠ "") (hg : ∀ g ∈ gaps, g < Client.typingDebounceMs)
    (he : Client.burstEndOk e) :
    (Client.runBurst name gaps e).2.countP (fun em => em.1 == "typing") = 1
    ∧ (Client.runBurst name gaps e).2.countP (fun em => em.1 == "stop_typing") = 1
    ∧ (Client.runBurst name gaps e).1 = Client.idleTyping := by
  have h1 : Client.handleTyping name { isTyping := false, timer := none } =
      (⟨true, some Client.typingDebounceMs⟩, [("typing", name)]) := by
    simp [Client.handleTyping, hn]
  have h2 := runGaps_active name hn gaps hg
  have hout : Client.runBurst name gaps e =
      (Client.idleTyping, [("typing", name), ("stop_typing", name)]) := by
    cases e with
    | quiescence d =>
      have hd : Client.typingDebounceMs ≤ d := he
      have h3 : Client.elapse name ⟨true, some Client.typingDebounceMs⟩ d =
          (⟨false, none⟩, [("stop_typing", name)]) := by
        simp [Client.elapse, hd]
      simp [Client.runBurst, Client.idleTyping, h1, h2, h3]
    | send =>
      have h3 : Client.sendTypingClear name ⟨true, some Client.typingDebounceMs⟩ =
          (⟨false, none⟩, [("stop_typing", name)]) := by
        simp [Client.sendTypingClear]
      simp [Client.runBurst, Client.idleTyping, h1, h2, h3]
  rw [hout]
  refine ⟨?_, ?_, rfl⟩ <;> simp [List.countP_cons]

/-- C7 witness: a burst of three keystrokes (gaps 500ms and 300ms) by "Ann",
ended by a send, emits `typing` once and `stop_typing` once and leaves the
typing state idle. -/
theorem c7_witness :
    (Client.runBurst "Ann" [500, 300] .send).2.countP (fun em => em.1 == "typing") = 1
    ∧ (Client.runBurst "Ann" [500, 300] .send).2.countP (fun em => em.1 == "stop_typing") = 1
    ∧ (Client.runBurst "Ann" [500, 300] .send).1 = Client.idleTyping :=
  c7_typing_burst_emits_start_once_stop_once "Ann" [500, 300] .send (by decide)
    (by decide) trivial

/-- Deleting a key from the pending map makes lookups of that key miss. -/
theorem lookupP_eraseP {β : Type} (l : List (String × β)) (k : String) :
    Client.lookupP (Client.eraseP l k) k = none := by
  induction l with
  | nil => rfl
  | cons kv rest ih =>
    rcases kv with ⟨k1, v⟩
    by_cases h : k1 = k
    · simpa [Client.eraseP, List.filter_cons, h] using ih
    · simpa [Client.eraseP, List.filter_cons, h, Client.lookupP] using ih

/-- C10: for each tempId the client processes at most one acknowledgement — after
any call of `handleAcknowledgement` the tempId is gone from the pending map, a
second call with the same tempId (any acknowledgement) leaves the state
unchanged, a call whose tempId is not pending is a no-op, and a processed call's
only effect on the pending map is to delete the tempId. -/
theorem c10_acknowledgement_processed_at_most_once
    (st : Client.ClientState) (tempId : String) (ack ack' : Server.AckObject) :
    Client.lookupP (Client.handleAcknowledgement st tempId ack).pending tempId = none
    ∧ Client.handleAcknowledgement (Client.handleAcknowledgement st tempId ack) tempId ack'
        = Client.handleAcknowledgement st tempId ack
    ∧ (Client.lookupP st.pending tempId = none →
        Client.handleAcknowledgement st tempId ack = st)
    ∧ (∀ pnd, Client.lookupP st.pending tempId = some pnd →
        (Client.handleAcknowledgement st tempId ack).pending =
          Client.eraseP st.pending tempId) := by
  have gen : ∀ (Y : Client.ClientState) (a : Server.AckObject),
      Client.lookupP Y.pending tempId = none →
      Client.handleAcknowledgement Y tempId a = Y := by
    intro Y a hY
    simp [Client.handleAcknowledgement, hY]
  have key : Client.lookupP (Client.handleAcknowledgement st tempId ack).pending tempId
      = none := by
    cases hc : Client.lookupP st.pending tempId with
    | none => rw [gen st ack hc]; exact hc
    | some pnd =>
      by_cases hs : ack.status = "success" <;>
        simp [Client.handleAcknowledgement, hc, hs, lookupP_eraseP]
  refine ⟨key, gen _ ack' key, gen st ack, ?_⟩
  intro pnd hc
  by_cases hs : ack.status = "success" <;>
    simp [Client.handleAcknowledgement, hc, hs]

/-- An optimistic pending `li` as rendered by the client's `sendMessage`. -/
def entryX : Client.Entry :=
  { messageId := "temp-1", sender := "Ann", text := "hi", createdAt := some 100
    status := some "⏳ Sending...", classes := ["pending"], retry := none }

/-- The pending-map value for that `li`. -/
def pndX : Client.PendingEntry := { liIndex := 0, username := "Ann", text := "hi" }

/-- A client state with exactly that one pending send. -/
def stX : Client.ClientState :=
  { myName := "Ann", pending := [("temp-1", pndX)], entries := [entryX], tempIdCounter := 2 }

/-- A success acknowledgement as the server produces it. -/
def ackX : Server.AckObject :=
  { status := "success", messageId := some 1, sender := some "Ann", text := some "hi"
    timestamp := some 1729, code := some "MESSAGE_SENT" }

/-- C10 witness: processing the acknowledgement for pending `temp-1` deletes
exactly that key from the pending map. -/
theorem c10_witness :
    (Client.handleAcknowledgement stX "temp-1" ackX).pending =
      Client.eraseP stX.pending "temp-1" :=
  (c10_acknowledgement_processed_at_most_once stX "temp-1" ackX ackX).2.2.2 pndX (by decide)

/-- A client with local identity "Ann" and nothing pending. -/
def stC9 : Client.ClientState :=
  { myName := "Ann", pending := [], entries := [], tempIdCounter := 1 }

/-- A broadcast from a different client whose user also picked the name "Ann"
(so it did not originate from this client's own send — nothing is even pending). -/
def msgC9 : Client.IncomingMsg :=
  { id := 7, sender := "Ann", text := "hello from another Ann", createdAt := 5
    isBroadcast := true, isOwnMessage := false }

/-- C9 counterexample: a broadcast `chat message` that did not originate from this
client (its pending map is empty) but whose sender equals the local identity is
suppressed by `handleIncomingMessage` — nothing is rendered, refuting "is still
rendered". -/
theorem c9_counterexample :
    Client.handleIncomingMessage stC9 msgC9 = stC9
    ∧ msgC9.sender = stC9.myName ∧ msgC9.isBroadcast = true
    ∧ msgC9.isOwnMessage = false ∧ stC9.pending = [] := by
  decide

/-- C9 (amended): an incoming `chat message` with `sender === myName && isBroadcast
&& !isOwnMessage` is suppressed entirely; every other incoming message is rendered
directly as one appended non-pending entry (`me`-classed exactly when the sender
equals the local identity), and in all cases the pending map is neither consulted
for deduplication nor modified. -/
theorem c9_incoming_render_except_same_name_broadcast
    (st : Client.ClientState) (msg : Client.IncomingMsg) :
    ((msg.sender = st.myName ∧ msg.isBroadcast ∧ ¬msg.isOwnMessage) →
        Client.handleIncomingMessage st msg = st)
    ∧ (¬(msg.sender = st.myName ∧ msg.isBroadcast ∧ ¬msg.isOwnMessage) →
        ∃ li : Client.Entry,
          (Client.handleIncomingMessage st msg).entries = st.entries ++ [li]
          ∧ li.sender = msg.sender ∧ li.text = msg.text
          ∧ "pending" ∉ li.classes
          ∧ ("me" ∈ li.classes ↔ msg.sender = st.myName)
          ∧ li.retry = none)
    ∧ (Client.handleIncomingMessage st msg).pending = st.pending
    ∧ (Client.handleIncomingMessage st msg).tempIdCounter = st.tempIdCounter := by
  by_cases h : msg.sender = st.myName ∧ msg.isBroadcast ∧ ¬msg.isOwnMessage
  · have hres : Client.handleIncomingMessage st msg = st := by
      simp [Client.handleIncomingMessage, h]
    exact ⟨fun _ => hres, fun hh => absurd h hh, by rw [hres], by rw [hres]⟩
  · by_cases hm : msg.sender = st.myName
    · have hres : Client.handleIncomingMessage st msg =
          { st with entries := st.entries ++
              [{ messageId := toString msg.id, sender := msg.sender, text := msg.text
                 createdAt := some msg.createdAt
                 status := some (if msg.isOwnMessage then "✓ Sent" else "📨 Received")
                 classes := ["me"], retry := none }] } := by
        unfold Client.handleIncomingMessage
        rw [if_neg h]
        simp [Client.createMessageElement, hm, Client.addClass]
      refine ⟨fun hh => absurd hh h, fun _ => ?_, by rw [hres], by rw [hres]⟩
      refine ⟨{ messageId := toString msg.id, sender := msg.sender, text := msg.text
                createdAt := some msg.createdAt
                status := some (if msg.isOwnMessage then "✓ Sent" else "📨 Received")
                classes := ["me"], retry := none },
              by rw [hres], rfl, rfl, by simp, by simp [hm], rfl⟩
    · have hres : Client.handleIncomingMessage st msg =
          { st with entries := st.entries ++
              [{ messageId := toString msg.id, sender := msg.sender, text := msg.text
                 createdAt := some msg.createdAt
                 status := some (if msg.isOwnMessage then "✓ Sent" else "📨 Received")
                 classes := [], retry := none }] } := by
        unfold Client.handleIncomingMessage
        rw [if_neg h]
        simp [Client.createMessageElement, hm]
      refine ⟨fun hh => absurd hh h, fun _ => ?_, by rw [hres], by rw [hres]⟩
      refine ⟨{ messageId := toString msg.id, sender := msg.sender, text := msg.text
                createdAt := some msg.createdAt
                status := some (if msg.isOwnMessage then "✓ Sent" else "📨 Received")
                classes := [], retry := none },
              by rw [hres], rfl, rfl, by simp, by simp [hm], rfl⟩

/-- A broadcast from a differently-named sender, for the C9 witness. -/
def msgC9w : Client.IncomingMsg :=
  { id := 9, sender := "Bob", text := "yo", createdAt := 6
    isBroadcast := true, isOwnMessage := false }

/-- C9 witness: a broadcast from "Bob" arriving at Ann's client is rendered as one
appended non-pending entry without the `me` class. -/
theorem c9_witness :
    ∃ li : Client.Entry,
      (Client.handleIncomingMessage stC9 msgC9w).entries = stC9.entries ++ [li]
      ∧ li.sender = msgC9w.sender ∧ li.text = msgC9w.text
      ∧ "pending" ∉ li.classes
      ∧ ("me" ∈ li.classes ↔ msgC9w.sender = stC9.myName)
      ∧ li.retry = none :=
  (c9_incoming_render_except_same_name_broadcast stC9 msgC9w).2.1 (by decide)

/-- An index with a hit in `getElem?` is in range. -/
theorem lt_of_getElem?_some {α : Type} {l : List α} {i : Nat} {a : α}
    (h : l[i]? = some a) : i < l.length := by
  by_contra hc
  rw [List.getElem?_eq_none (Nat.le_of_not_lt hc)] at h
  exact Option.noConfusion h

/-- `classList.add` guarantees membership. -/
theorem mem_addClass_self (l : List String) (c : String) : c ∈ Client.addClass l c := by
  by_cases h : c ∈ l <;> simp [Client.addClass, h]

/-- C8: clicking the retry control of a failed entry re-emits the send with the
originally captured sender and text under the same list entry — no new list
entry, no new tempId, pending map untouched — and disables the control so a
second click while in flight is a no-op; a success acknowledgement for the retry
leaves the list the same length with exactly that one entry Delivered (status
`✓ Delivered (Retried)`, `me`-classed, retry control removed) and every other
entry untouched.  Moreover the control attached on failure is bound to the
pending entry's original username and text. -/
theorem c8_retry_reuses_same_entry
    (st : Client.ClientState) (i : Nat) (e : Client.Entry) (r : Client.RetryInfo)
    (ack : Server.AckObject)
    (he : st.entries[i]? = some e) (hr : e.retry = some r) (hd : r.disabled = false)
    (ha : ack.status = "success") :
    (Client.retryClick st i).2 = some (r.username, r.text)
    ∧ (Client.retryClick st i).1.entries.length = st.entries.length
    ∧ (Client.retryClick st i).1.pending = st.pending
    ∧ (Client.retryClick st i).1.tempIdCounter = st.tempIdCounter
    ∧ Client.retryClick (Client.retryClick st i).1 i = ((Client.retryClick st i).1, none)
    ∧ (Client.retryAck (Client.retryClick st i).1 i ack).entries.length = st.entries.length
    ∧ (∃ e₂, (Client.retryAck (Client.retryClick st i).1 i ack).entries[i]? = some e₂
        ∧ e₂.status = some "✓ Delivered (Retried)" ∧ e₂.retry = none
        ∧ "me" ∈ e₂.classes ∧ e₂.sender = e.sender ∧ e₂.text = e.text)
    ∧ (∀ j, j ≠ i →
        (Client.retryAck (Client.retryClick st i).1 i ack).entries[j]? = st.entries[j]?)
    ∧ (Client.retryAck (Client.retryClick st i).1 i ack).pending = st.pending
    ∧ (Client.retryAck (Client.retryClick st i).1 i ack).tempIdCounter = st.tempIdCounter
    ∧ (∀ (st₀ : Client.ClientState) (tid : String) (pnd : Client.PendingEntry)
          (fack : Server.AckObject),
        Client.lookupP st₀.pending tid = some pnd → fack.status ≠ "success" →
        pnd.liIndex < st₀.entries.length →
        ∃ e₀, (Client.handleAcknowledgement st₀ tid fack).entries[pnd.liIndex]? = some e₀
          ∧ e₀.retry = some ⟨pnd.username, pnd.text, false, "Retry"⟩) := by
  have hlt : i < st.entries.length := lt_of_getElem?_some he
  have hclick : Client.retryClick st i =
      ({ st with entries := st.entries.set i ({ e with
            retry := some { r with disabled := true, label := "Retrying..." }
            classes := Client.addClass (Client.removeClass e.classes "error") "pending"
            status := some "⏳ Retrying..." }) },
        some (r.username, r.text)) := by
    simp [Client.retryClick, he, hr, hd]
  set e₁ : Client.Entry :=
    { e with
      retry := some { r with disabled := true, label := "Retrying..." }
      classes := Client.addClass (Client.removeClass e.classes "error") "pending"
      status := some "⏳ Retrying..." } with he₁
  have hset : (st.entries.set i e₁)[i]? = some e₁ := List.getElem?_set_self hlt
  have hclick2 : Client.retryClick { st with entries := st.entries.set i e₁ } i =
      ({ st with entries := st.entries.set i e₁ }, none) := by
    simp [Client.retryClick, hset, he₁]
  set e₂ : Client.Entry :=
    { e₁ with
      status := some "✓ Delivered (Retried)"
      classes := Client.addClass (Client.removeClass e₁.classes "pending") "me"
      retry := none } with he₂
  have hack : Client.retryAck { st with entries := st.entries.set i e₁ } i ack =
      { st with entries := (st.entries.set i e₁).set i e₂ } := by
    simp [Client.retryAck, hset, ha, he₂]
  have hset2 : ((st.entries.set i e₁).set i e₂)[i]? = some e₂ := by
    exact List.getElem?_set_self (by simpa using hlt)
  refine ⟨by rw [hclick], ?_, by rw [hclick], by rw [hclick], ?_, ?_, ?_, ?_, ?_, ?_, ?_⟩
  · rw [hclick]; simp
  · rw [hclick]; exact hclick2
  · rw [hclick, hack]; simp
  · rw [hclick, hack]
    exact ⟨e₂, hset2, rfl, rfl, mem_addClass_self _ _, rfl, rfl⟩
  · intro j hj
    rw [hclick, hack]
    rw [List.getElem?_set_ne (Ne.symm hj), List.getElem?_set_ne (Ne.symm hj)]
  · rw [hclick, hack]
  · rw [hclick, hack]
  · intro st₀ tid pnd fack hl hf hlen
    have hget : st₀.entries[pnd.liIndex]? = some (st₀.entries[pnd.liIndex]) :=
      List.getElem?_eq_getElem hlen
    have hfail : (fack.status = "success") = False := by
      simp [hf]
    refine ⟨Client.addRetryButton
        (Client.updateMessageElement
          { st₀.entries[pnd.liIndex] with
            classes := Client.addClass
              (Client.removeClass st₀.entries[pnd.liIndex].classes "pending") "error" }
          { status := some ("✗ " ++ jsShow (orFalsy fack.message fack.error)) })
        pnd.username pnd.text, ?_, by simp [Client.addRetryButton]⟩
    simp only [Client.handleAcknowledgement, hl, hfail, if_false, hget]
    exact List.getElem?_set_self hlen

/-- The retry control attached to Ann's failed message, for the C8 witness. -/
def rW : Client.RetryInfo := { username := "Ann", text := "hi", disabled := false, label := "Retry" }

/-- A failed entry carrying that retry control. -/
def eW : Client.Entry :=
  { messageId := "temp-1", sender := "Ann", text := "hi", createdAt := some 100
    status := some "✗ boom", classes := ["error"], retry := some rW }

/-- A client state whose message list holds exactly that failed entry. -/
def stW : Client.ClientState :=
  { myName := "Ann", pending := [], entries := [eW], tempIdCounter := 2 }

/-- C8 witness: clicking retry on the failed entry re-emits Ann's original
message without growing the message list. -/
theorem c8_witness :
    (Client.retryClick stW 0).2 = some (rW.username, rW.text) :=
  (c8_retry_reuses_same_entry stW 0 eW rW ackX (by decide) (by decide) (by decide)
    (by decide)).1

end ChatApp
